import Mathlib

/-!
Shallow embedding of the authentication/session lifecycle of the
repository (NestJS `AuthService` in
`src/src/modules/auth/dto/req/sign-in.req.dto.ts`, which concatenates the
`SignInReqDto` class and the `AuthService` class).

The collaborators injected into `AuthService` (`UserRepository`,
`RefreshTokenRepository`, `AuthCacheService`, `TokenService`,
`UserService`, `AuthMapper`) are not part of the visible sources; they are
modelled from the spec (sections 3, 4.2, 4.3 and 6) and carry doc comments
starting with `Modelled from the spec:`.  The bodies of the five public
flows (`signUp`, `signUpAdmin`, `signIn`, `logout`, `refreshToken`) are
translated statement by statement from the source.

Execution model: single-threaded event loop.  Each flow is a function
from a world state to `(Except Err result, new state, trace of store
events)`.  An `await Promise.all([...])` is a fan-out/fan-in join: both
store operations complete before the next statement runs; within one join
the operations are recorded in the array order of the source.
-/

namespace FinalWork

/-- Role enumeration (`UserRoleEnum` in `database/enums/roles.enum`);
the spec (section 3) enumerates roles as normal and admin. -/
inductive UserRoleEnum where
  | USER : UserRoleEnum
  | ADMIN : UserRoleEnum
deriving DecidableEq, Repr

/-- Modelled from the spec: the external bcrypt library (spec 4.2):
`hash` is the one-way hash, `compare` the verification predicate.  It is a
parameter of the flows because the library is an external capability whose
behaviour (including a hypothetical hashing-library failure, spec 4.1
signUpAdmin) is outside the repository. -/
structure Bcrypt where
  hash : String → String
  compare : String → String → Bool

/-- A JavaScript `Promise` object, used to model the unawaited
`bcrypt.compare(...)` call in `signUpAdmin` (source line 68): the variable
holds the promise object itself, not the resolved boolean. -/
structure Promise (α : Type) where
  val : α
deriving DecidableEq, Repr

/-- JavaScript truthiness of a `Promise` object: any object is truthy,
regardless of the value it will resolve to. -/
def Promise.truthy {α : Type} (_ : Promise α) : Bool :=
  true

/-- Error kinds of the subsystem (spec section 7 taxonomy) plus
`typeError`, the runtime `TypeError` raised by dereferencing a `null`
lookup result (not part of the spec taxonomy). -/
inductive Err where
  | conflict : Err
  | unauthorized : Err
  | notFound : Err
  | typeError : Err
deriving DecidableEq, Repr

/-- A row of the user store (`UserEntity`): id, unique email, password
hash, role (spec section 3). -/
structure UserEntity where
  id : Nat
  email : String
  password : String
  role : UserRoleEnum
deriving DecidableEq, Repr

/-- A row of the refresh-token store: (userId, deviceId) → token
(spec section 3, RefreshTokenRecord). -/
structure RefreshRec where
  userId : Nat
  deviceId : String
  token : Nat
deriving DecidableEq, Repr

/-- An entry of the access-token cache: (userId, deviceId) → token
(spec section 3, AccessTokenCacheEntry). -/
structure CacheEntry where
  userId : Nat
  deviceId : String
  token : Nat
deriving DecidableEq, Repr

/-- `TokenResDto`: the access/refresh token pair and nothing else.
Token values are modelled as naturals minted by the token issuer. -/
structure TokenResDto where
  accessToken : Nat
  refreshToken : Nat
deriving DecidableEq, Repr

/-- `SignUpReqDto`: email, password, deviceId (the fields the flows
read). -/
structure SignUpReqDto where
  email : String
  password : String
  deviceId : String
deriving DecidableEq, Repr

/-- `SignInReqDto`: `PickType(BaseAuthReqDto, [deviceId, email,
password])` — exactly these three fields (source lines 4-8). -/
structure SignInReqDto where
  deviceId : String
  email : String
  password : String
deriving DecidableEq, Repr

/-- `IUserData`: the authenticated caller data used by `logout` and
`refreshToken` (userId and deviceId fields read by the source). -/
structure IUserData where
  userId : Nat
  deviceId : String
deriving DecidableEq, Repr

/-- Modelled from the spec: `AuthUserResDto`, the user projection plus
token pair returned by signUp/signUpAdmin/signIn (spec 4.1, "user
projection + token pair"; `AuthMapper.toResponseDto` is not in the
sources). -/
structure AuthUserResDto where
  userId : Nat
  email : String
  role : UserRoleEnum
  tokens : TokenResDto
deriving DecidableEq, Repr

/-- The world state: the three stores (spec section 1: user record
store, refresh-token store, access-token cache), the id sequence of the
user table, and the nonce counter of the token issuer. -/
structure St where
  users : List UserEntity
  nextUserId : Nat
  refreshStore : List RefreshRec
  cache : List CacheEntry
  tokenCounter : Nat
deriving DecidableEq, Repr

/-- A store operation performed by a flow, recorded in execution
order. -/
inductive Ev where
  | refreshDelete : Nat → String → Ev
  | cacheRemove : Nat → String → Ev
  | refreshSave : Nat → String → Nat → Ev
  | cacheSave : Nat → String → Nat → Ev
deriving DecidableEq, Repr

/-- Whether an event is one of the two delete-phase operations. -/
def Ev.isDelete : Ev → Bool
  | .refreshDelete _ _ => true
  | .cacheRemove _ _ => true
  | _ => false

/-- Whether an event is one of the two write-phase operations. -/
def Ev.isWrite : Ev → Bool
  | .refreshSave _ _ _ => true
  | .cacheSave _ _ _ => true
  | _ => false

/-- Modelled from the spec: `UserRepository.findOne({ where: { email },
select: { id, password } })` — fetch a user by email (spec 6:
findByEmail). -/
def findByEmail (users : List UserEntity) (email : String) : Option UserEntity :=
  users.find? (fun u => u.email == email)

/-- Modelled from the spec: `UserRepository.findOneBy({ id })` — fetch a
user by id (spec 6: findById). -/
def findById (users : List UserEntity) (id : Nat) : Option UserEntity :=
  users.find? (fun u => u.id == id)

/-- Modelled from the spec: the email-uniqueness predicate behind
`UserService.isEmailUniqOrThrow` (spec 4.1: "email must be unique;
violation fails with a Conflict-kind error (delegated check)"). -/
def emailExists (users : List UserEntity) (email : String) : Bool :=
  (findByEmail users email).isSome

/-- Key predicate for the refresh-token store. -/
def keyR (userId : Nat) (deviceId : String) (r : RefreshRec) : Bool :=
  r.userId == userId && r.deviceId == deviceId

/-- Key predicate for the access-token cache. -/
def keyC (userId : Nat) (deviceId : String) (e : CacheEntry) : Bool :=
  e.userId == userId && e.deviceId == deviceId

/-- Modelled from the spec: `RefreshTokenRepository.saveToken` inserts a
new row (spec 4.1 signIn: without the preceding delete the one-record-
per-device invariant "would otherwise be violated or produce stale
duplicates", i.e. save is a plain insert). -/
def refreshSaveToken (s : St) (userId : Nat) (deviceId : String) (token : Nat) : St :=
  { s with refreshStore := s.refreshStore ++ [⟨userId, deviceId, token⟩] }

/-- Modelled from the spec: `RefreshTokenRepository.delete({ userId,
deviceId })` — delete-if-present, idempotent, no error if absent
(spec 6). -/
def refreshDeleteRows (s : St) (userId : Nat) (deviceId : String) : St :=
  { s with refreshStore := s.refreshStore.filter (fun r => !keyR userId deviceId r) }

/-- Modelled from the spec: `AuthCacheService.saveToken` — the cache is a
mapping (user, device) → current access token (spec 2), so save sets the
entry for the key. -/
def cacheSaveToken (s : St) (userId : Nat) (deviceId : String) (token : Nat) : St :=
  { s with cache :=
      ⟨userId, deviceId, token⟩ :: s.cache.filter (fun e => !keyC userId deviceId e) }

/-- Modelled from the spec: `AuthCacheService.removeToken` — remove-if-
present, idempotent (spec 6). -/
def cacheRemoveToken (s : St) (userId : Nat) (deviceId : String) : St :=
  { s with cache := s.cache.filter (fun e => !keyC userId deviceId e) }

/-- Modelled from the spec: `TokenService.generateAuthTokens` mints a
fresh signed access/refresh pair (spec 4.3); freshness of every mint is
modelled by a nonce counter, the two tokens of mint `c` being `2*c` and
`2*c + 1`. -/
def generateAuthTokens (s : St) : TokenResDto × St :=
  (⟨2 * s.tokenCounter, 2 * s.tokenCounter + 1⟩, { s with tokenCounter := s.tokenCounter + 1 })

/-- `AuthService.signUp` (source lines 35-59): uniqueness check, hash,
create+save user with default role, mint tokens, then `Promise.all` of
cache save and refresh-store save, then the mapped response. -/
def signUp (b : Bcrypt) (dto : SignUpReqDto) (s : St) :
    Except Err AuthUserResDto × St × List Ev :=
  if emailExists s.users dto.email then
    (.error .conflict, s, [])
  else
    let password := b.hash dto.password
    let user : UserEntity := ⟨s.nextUserId, dto.email, password, .USER⟩
    let s1 : St := { s with users := s.users ++ [user], nextUserId := s.nextUserId + 1 }
    let p := generateAuthTokens s1
    let tokens := p.1
    let s2 := p.2
    let s3 := cacheSaveToken s2 user.id dto.deviceId tokens.accessToken
    let s4 := refreshSaveToken s3 user.id dto.deviceId tokens.refreshToken
    (.ok ⟨user.id, user.email, user.role, tokens⟩, s4,
      [.cacheSave user.id dto.deviceId tokens.accessToken,
       .refreshSave user.id dto.deviceId tokens.refreshToken])

/-- `AuthService.signUpAdmin` (source lines 61-89): like `signUp` but the
role is forced to admin before saving, and line 68 assigns the unawaited
promise of `bcrypt.compare(dto.password, user.password)` to
`isPasswordValid`; line 69 then tests the truthiness of that promise
object. -/
def signUpAdmin (b : Bcrypt) (dto : SignUpReqDto) (s : St) :
    Except Err AuthUserResDto × St × List Ev :=
  if emailExists s.users dto.email then
    (.error .conflict, s, [])
  else
    let password := b.hash dto.password
    let user : UserEntity := ⟨s.nextUserId, dto.email, password, .ADMIN⟩
    let s1 : St := { s with users := s.users ++ [user], nextUserId := s.nextUserId + 1 }
    let isPasswordValid : Promise Bool := ⟨b.compare dto.password user.password⟩
    if !isPasswordValid.truthy then
      (.error .unauthorized, s1, [])
    else
      let p := generateAuthTokens s1
      let tokens := p.1
      let s2 := p.2
      let s3 := refreshSaveToken s2 user.id dto.deviceId tokens.refreshToken
      let s4 := cacheSaveToken s3 user.id dto.deviceId tokens.accessToken
      (.ok ⟨user.id, user.email, user.role, tokens⟩, s4,
        [.refreshSave user.id dto.deviceId tokens.refreshToken,
         .cacheSave user.id dto.deviceId tokens.accessToken])

/-- `AuthService.signIn` (source lines 91-131): find by email (else
Unauthorized), compare password (else Unauthorized), re-fetch the full
user by id (the source then dereferences it without a null check), mint
tokens, `Promise.all` delete phase, `Promise.all` write phase, mapped
response. -/
def signIn (b : Bcrypt) (dto : SignInReqDto) (s : St) :
    Except Err AuthUserResDto × St × List Ev :=
  match findByEmail s.users dto.email with
  | none => (.error .unauthorized, s, [])
  | some userEntity =>
    if !b.compare dto.password userEntity.password then
      (.error .unauthorized, s, [])
    else
      match findById s.users userEntity.id with
      | none => (.error .typeError, s, [])
      | some user =>
        let p := generateAuthTokens s
        let tokens := p.1
        let s1 := p.2
        let s2 := refreshDeleteRows s1 user.id dto.deviceId
        let s3 := cacheRemoveToken s2 user.id dto.deviceId
        let s4 := refreshSaveToken s3 user.id dto.deviceId tokens.refreshToken
        let s5 := cacheSaveToken s4 user.id dto.deviceId tokens.accessToken
        (.ok ⟨user.id, user.email, user.role, tokens⟩, s5,
          [.refreshDelete user.id dto.deviceId,
           .cacheRemove user.id dto.deviceId,
           .refreshSave user.id dto.deviceId tokens.refreshToken,
           .cacheSave user.id dto.deviceId tokens.accessToken])

/-- `AuthService.logout` (source lines 133-141): `Promise.all` of the
refresh-store delete and the cache remove for (userId, deviceId), then
return void. -/
def logout (userData : IUserData) (s : St) : Except Err Unit × St × List Ev :=
  let s1 := refreshDeleteRows s userData.userId userData.deviceId
  let s2 := cacheRemoveToken s1 userData.userId userData.deviceId
  (.ok (), s2,
    [.refreshDelete userData.userId userData.deviceId,
     .cacheRemove userData.userId userData.deviceId])

/-- `AuthService.refreshToken` (source lines 143-171): fetch user by id,
then build the delete criteria from `user.id` with no null check (a
`null` lookup result raises a `TypeError` there), `Promise.all` delete
phase, mint tokens, `Promise.all` write phase, return only the token
pair. -/
def refreshToken (userData : IUserData) (s : St) :
    Except Err TokenResDto × St × List Ev :=
  match findById s.users userData.userId with
  | none => (.error .typeError, s, [])
  | some user =>
    let s1 := refreshDeleteRows s user.id userData.deviceId
    let s2 := cacheRemoveToken s1 user.id userData.deviceId
    let p := generateAuthTokens s2
    let tokens := p.1
    let s3 := p.2
    let s4 := refreshSaveToken s3 user.id userData.deviceId tokens.refreshToken
    let s5 := cacheSaveToken s4 user.id userData.deviceId tokens.accessToken
    (.ok tokens, s5,
      [.refreshDelete user.id userData.deviceId,
       .cacheRemove user.id userData.deviceId,
       .refreshSave user.id userData.deviceId tokens.refreshToken,
       .cacheSave user.id userData.deviceId tokens.accessToken])

/-- Number of refresh-token records for a (userId, deviceId) pair. -/
def refreshCount (s : St) (userId : Nat) (deviceId : String) : Nat :=
  (s.refreshStore.filter (keyR userId deviceId)).length

/-- Number of cache entries for a (userId, deviceId) pair. -/
def cacheCount (s : St) (userId : Nat) (deviceId : String) : Nat :=
  (s.cache.filter (keyC userId deviceId)).length

/-- Well-formedness of a state: every stored token was minted by an
earlier call of the issuer (value below `2 * tokenCounter`). -/
def tokensFresh (s : St) : Bool :=
  s.refreshStore.all (fun r => r.token < 2 * s.tokenCounter) &&
  s.cache.all (fun e => e.token < 2 * s.tokenCounter)

/-- Well-formedness of a state: every stored row references a userId
already allocated by the user-table id sequence. -/
def idsFresh (s : St) : Bool :=
  s.refreshStore.all (fun r => r.userId < s.nextUserId) &&
  s.cache.all (fun e => e.userId < s.nextUserId)

/-- A well-behaved bcrypt instance used for concrete runs: the hash tags
the plaintext and compare checks the tag. -/
def goodBcrypt : Bcrypt :=
  ⟨fun p => "#" ++ p, fun p h => h == "#" ++ p⟩

/-- A faulty bcrypt instance whose verification always fails, modelling
the hashing-library failure the defensive self-check of `signUpAdmin` is
meant to guard against (spec 4.1). -/
def badBcrypt : Bcrypt :=
  ⟨fun p => "#" ++ p, fun _ _ => false⟩

/-- The empty initial world. -/
def st0 : St :=
  ⟨[], 0, [], [], 0⟩

/-- The world after a successful signUp of user "a" with password "p" on
device "d". -/
def stA : St :=
  (signUp goodBcrypt ⟨"a", "p", "d"⟩ st0).2.1

/-- The world after a further successful signIn for the same user and
device. -/
def stB : St :=
  (signIn goodBcrypt ⟨"d", "a", "p"⟩ stA).2.1

/-- Filtering by a key after having removed every element matching that
key yields nothing. -/
theorem filter_not_self {α : Type} (p : α → Bool) (l : List α) :
    (l.filter (fun a => !p a)).filter p = [] := by
  induction l with
  | nil => rfl
  | cons a l ih => cases h : p a <;> simp [List.filter_cons, h, ih]

/-- Filtering twice by the same predicate is the same as filtering
once. -/
theorem filter_self_idem {α : Type} (p : α → Bool) (l : List α) :
    (l.filter p).filter p = l.filter p := by
  induction l with
  | nil => rfl
  | cons a l ih => cases h : p a <;> simp [List.filter_cons, h, ih]

/-- Filtering a keyed refresh list after removing the key and appending
one fresh record for the key leaves exactly that record. -/
theorem filter_keyR_delete_save (l : List RefreshRec) (u : Nat) (d : String) (t : Nat) :
    ((l.filter (fun r => !keyR u d r)) ++ [(⟨u, d, t⟩ : RefreshRec)]).filter (keyR u d) =
      [⟨u, d, t⟩] := by
  have h1 : keyR u d ⟨u, d, t⟩ = true := by simp [keyR]
  rw [List.filter_append, filter_not_self]
  simp [List.filter_cons, h1]

/-- Filtering a keyed cache list after removing the key and consing one
fresh entry for the key leaves exactly that entry. -/
theorem filter_keyC_save (l : List CacheEntry) (u : Nat) (d : String) (t : Nat) :
    ((⟨u, d, t⟩ : CacheEntry) :: l.filter (fun e => !keyC u d e)).filter (keyC u d) =
      [⟨u, d, t⟩] := by
  have h1 : keyC u d ⟨u, d, t⟩ = true := by simp [keyC]
  simp only [List.filter_cons, h1, if_true]
  rw [filter_not_self]

/-- A refresh list whose userIds are all below `n` has no record keyed by
`n`. -/
theorem filter_keyR_nil_of_lt (l : List RefreshRec) (n : Nat) (d : String)
    (h : l.all (fun r => r.userId < n) = true) :
    l.filter (keyR n d) = [] := by
  rw [List.filter_eq_nil_iff]
  intro r hr
  have hlt := List.all_eq_true.mp h r hr
  simp only [decide_eq_true_eq] at hlt
  simp only [keyR, Bool.and_eq_true, beq_iff_eq, not_and]
  intro hEq
  omega

/-- Inversion of a successful `signUp`: the created user gets the next
fresh id, the returned tokens are the freshly minted pair, one refresh
record is appended and one cache entry is set for (newUserId,
deviceId). -/
theorem signUp_ok_inv (b : Bcrypt) (dto : SignUpReqDto) (s : St) (r : AuthUserResDto)
    (s' : St) (tr : List Ev) (h : signUp b dto s = (.ok r, s', tr)) :
    r.userId = s.nextUserId ∧
    r.tokens = ⟨2 * s.tokenCounter, 2 * s.tokenCounter + 1⟩ ∧
    s'.refreshStore =
      s.refreshStore ++ [⟨s.nextUserId, dto.deviceId, r.tokens.refreshToken⟩] ∧
    s'.cache =
      ⟨s.nextUserId, dto.deviceId, r.tokens.accessToken⟩ ::
        s.cache.filter (fun e => !keyC s.nextUserId dto.deviceId e) := by
  unfold signUp at h
  split at h
  · simp at h
  · simp only [Prod.mk.injEq, Except.ok.injEq] at h
    obtain ⟨h1, h2, h3⟩ := h
    subst h1
    subst h2
    exact ⟨rfl, rfl, rfl, rfl⟩

/-- Inversion of a successful `signIn`: the response carries the found
user's id and the freshly minted pair; the refresh store has been
key-cleared and appended with the new record, the cache key-cleared and
set with the new entry. -/
theorem signIn_ok_inv (b : Bcrypt) (dto : SignInReqDto) (s : St) (r : AuthUserResDto)
    (s' : St) (tr : List Ev) (h : signIn b dto s = (.ok r, s', tr)) :
    ∃ user : UserEntity,
      r.userId = user.id ∧
      r.tokens = ⟨2 * s.tokenCounter, 2 * s.tokenCounter + 1⟩ ∧
      s'.refreshStore =
        s.refreshStore.filter (fun x => !keyR user.id dto.deviceId x) ++
          [⟨user.id, dto.deviceId, r.tokens.refreshToken⟩] ∧
      s'.cache =
        ⟨user.id, dto.deviceId, r.tokens.accessToken⟩ ::
          s.cache.filter (fun e => !keyC user.id dto.deviceId e) := by
  unfold signIn at h
  split at h
  · simp at h
  · split at h
    · simp at h
    · split at h
      · simp at h
      · rename_i user heq
        simp only [Prod.mk.injEq, Except.ok.injEq] at h
        obtain ⟨h1, h2, h3⟩ := h
        subst h1
        subst h2
        refine ⟨user, rfl, rfl, rfl, ?_⟩
        simp only [cacheSaveToken, cacheRemoveToken, refreshSaveToken, refreshDeleteRows,
          generateAuthTokens, filter_self_idem]

/-- Inversion of a successful `refreshToken`: the fetched user has the
caller's userId, the returned value is the freshly minted pair, the
refresh store has been key-cleared and appended with the new record, the
cache key-cleared and set with the new entry. -/
theorem refreshToken_ok_inv (userData : IUserData) (s : St) (t : TokenResDto)
    (s' : St) (tr : List Ev) (h : refreshToken userData s = (.ok t, s', tr)) :
    ∃ user : UserEntity,
      user.id = userData.userId ∧
      t = ⟨2 * s.tokenCounter, 2 * s.tokenCounter + 1⟩ ∧
      s'.refreshStore =
        s.refreshStore.filter (fun x => !keyR user.id userData.deviceId x) ++
          [⟨user.id, userData.deviceId, t.refreshToken⟩] ∧
      s'.cache =
        ⟨user.id, userData.deviceId, t.accessToken⟩ ::
          s.cache.filter (fun e => !keyC user.id userData.deviceId e) := by
  unfold refreshToken at h
  split at h
  · simp at h
  · rename_i user heq
    unfold findById at heq
    have hid := List.find?_some heq
    simp only [beq_iff_eq] at hid
    simp only [Prod.mk.injEq, Except.ok.injEq] at h
    obtain ⟨h1, h2, h3⟩ := h
    subst h1
    subst h2
    refine ⟨user, hid, rfl, rfl, ?_⟩
    simp only [cacheSaveToken, cacheRemoveToken, refreshSaveToken, refreshDeleteRows,
      generateAuthTokens, filter_self_idem]

/-- The trace of a `signIn` is either empty or the canonical
delete-delete-save-save quadruple. -/
theorem signIn_trace_shape (b : Bcrypt) (dto : SignInReqDto) (s : St) :
    (signIn b dto s).2.2 = [] ∨
    ∃ u d t1 t2, (signIn b dto s).2.2 =
      [Ev.refreshDelete u d, Ev.cacheRemove u d,
       Ev.refreshSave u d t1, Ev.cacheSave u d t2] := by
  unfold signIn
  split
  · left; rfl
  · split
    · left; rfl
    · split
      · left; rfl
      · right; exact ⟨_, _, _, _, rfl⟩

/-- The trace of a `refreshToken` is either empty or the canonical
delete-delete-save-save quadruple. -/
theorem refreshToken_trace_shape (userData : IUserData) (s : St) :
    (refreshToken userData s).2.2 = [] ∨
    ∃ u d t1 t2, (refreshToken userData s).2.2 =
      [Ev.refreshDelete u d, Ev.cacheRemove u d,
       Ev.refreshSave u d t1, Ev.cacheSave u d t2] := by
  unfold refreshToken
  split
  · left; rfl
  · right; exact ⟨_, _, _, _, rfl⟩

/-- In any trace of the canonical shape, every delete-phase event occurs
strictly before every write-phase event. -/
theorem trace_ordered_aux (tr : List Ev)
    (hsh : tr = [] ∨ ∃ u d t1 t2,
      tr = [Ev.refreshDelete u d, Ev.cacheRemove u d,
            Ev.refreshSave u d t1, Ev.cacheSave u d t2])
    (i j : Nat) (hi : i < tr.length) (hj : j < tr.length)
    (hdel : (tr.get ⟨i, hi⟩).isDelete = true)
    (hwr : (tr.get ⟨j, hj⟩).isWrite = true) : i < j := by
  rcases hsh with rfl | ⟨u, d, t1, t2, rfl⟩
  · simp at hi
  · simp only [List.length_cons, List.length_nil] at hi hj
    interval_cases i <;> interval_cases j <;>
      simp_all [List.get, Ev.isDelete, Ev.isWrite]

/-- Claim C10: `logout` never reads the user store and cannot fail: for
every caller data and state it returns ok, performs exactly the two
keyed deletions on the refresh-token store and the access-token cache,
and leaves every other component of the state (in particular the user
store) untouched. -/
theorem C10_logout_frame (userData : IUserData) (s : St) :
    logout userData s =
      (.ok (),
       { s with
          refreshStore :=
            s.refreshStore.filter (fun r => !keyR userData.userId userData.deviceId r),
          cache := s.cache.filter (fun e => !keyC userData.userId userData.deviceId e) },
       [.refreshDelete userData.userId userData.deviceId,
        .cacheRemove userData.userId userData.deviceId]) :=
  rfl

/-- Claim C7: `logout` succeeds without error on any state, even when no
refresh-token record and no cache entry exist for the pair (delete-if-
present semantics); afterwards zero entries exist in either store for
that pair, and repeating `logout` is idempotent (same resulting state and
same ok outcome). -/
theorem C7_logout_idempotent (userData : IUserData) (s : St) :
    (logout userData s).1 = .ok () ∧
    refreshCount (logout userData s).2.1 userData.userId userData.deviceId = 0 ∧
    cacheCount (logout userData s).2.1 userData.userId userData.deviceId = 0 ∧
    (logout userData ((logout userData s).2.1)).2.1 = (logout userData s).2.1 := by
  refine ⟨rfl, ?_, ?_, ?_⟩
  · simp [logout, refreshCount, refreshDeleteRows, cacheRemoveToken, filter_not_self]
  · simp [logout, cacheCount, refreshDeleteRows, cacheRemoveToken, filter_not_self]
  · simp [logout, refreshDeleteRows, cacheRemoveToken, filter_self_idem]

/-- Claim C3: during `signIn`, a non-existent email and an existing email
with a wrong password fail with the very same error value
(`Err.unauthorized`) and the very same unmodified state and empty trace:
the two failure causes are observably indistinguishable. -/
theorem C3_unauthorized_indistinguishable (b : Bcrypt) (dto : SignInReqDto) (s : St) :
    (findByEmail s.users dto.email = none →
      signIn b dto s = (.error .unauthorized, s, [])) ∧
    (∀ u, findByEmail s.users dto.email = some u →
      b.compare dto.password u.password = false →
      signIn b dto s = (.error .unauthorized, s, [])) := by
  constructor
  · intro h
    unfold signIn
    rw [h]
  · intro u hu hc
    unfold signIn
    simp [hu, hc]

/-- Witness for C3: on the concrete post-signUp world, signing in with
an unknown email and signing in with the right email but wrong password
both produce the identical Unauthorized outcome. -/
theorem C3_witness :
    signIn goodBcrypt ⟨"d", "z", "p"⟩ stA = (.error .unauthorized, stA, []) ∧
    signIn goodBcrypt ⟨"d", "a", "w"⟩ stA = (.error .unauthorized, stA, []) := by
  constructor
  · exact (C3_unauthorized_indistinguishable goodBcrypt ⟨"d", "z", "p"⟩ stA).1 (by decide)
  · exact (C3_unauthorized_indistinguishable goodBcrypt ⟨"d", "a", "w"⟩ stA).2
      ⟨0, "a", "#p", .USER⟩ (by decide) (by decide)

/-- Claim C4: a `signIn` with an existing email and a wrong password
fails with Unauthorized and returns the state exactly as it was: neither
the refresh-token store nor the access-token cache (nor anything else)
is modified, and no store event is emitted. -/
theorem C4_wrong_password_frame (b : Bcrypt) (dto : SignInReqDto) (s : St) (u : UserEntity) :
    findByEmail s.users dto.email = some u →
    b.compare dto.password u.password = false →
    signIn b dto s = (.error .unauthorized, s, []) := by
  intro hu hc
  unfold signIn
  simp [hu, hc]

/-- Witness for C4: the concrete wrong-password signIn leaves the
post-signUp world exactly as it was. -/
theorem C4_witness :
    signIn goodBcrypt ⟨"d", "a", "w"⟩ stA = (.error .unauthorized, stA, []) :=
  C4_wrong_password_frame goodBcrypt ⟨"d", "a", "w"⟩ stA
    ⟨0, "a", "#p", .USER⟩ (by decide) (by decide)

/-- Claim C5: a `signUp` whose email is already registered fails with
Conflict and performs no write at all: the state comes back unchanged
(user store, refresh-token store and cache included) and the trace is
empty. -/
theorem C5_duplicate_email_conflict (b : Bcrypt) (dto : SignUpReqDto) (s : St) :
    emailExists s.users dto.email = true →
    signUp b dto s = (.error .conflict, s, []) := by
  intro h
  unfold signUp
  simp [h]

/-- Witness for C5: re-registering the already-taken email "a" on the
concrete post-signUp world fails with Conflict and changes nothing. -/
theorem C5_witness :
    signUp goodBcrypt ⟨"a", "q", "d2"⟩ stA = (.error .conflict, stA, []) :=
  C5_duplicate_email_conflict goodBcrypt ⟨"a", "q", "d2"⟩ stA (by decide)

/-- Claim C9: when `refreshToken` is called for a userId with no user
record, the null lookup result is dereferenced while building the delete
criteria, so the call fails with a runtime `TypeError` before either
store operation runs: the error is not of the NotFound kind, the state
is unchanged and no store event is emitted. -/
theorem C9_refresh_null_deref (userData : IUserData) (s : St) :
    findById s.users userData.userId = none →
    refreshToken userData s = (.error .typeError, s, []) ∧
      Err.typeError ≠ Err.notFound := by
  intro h
  refine ⟨?_, by decide⟩
  unfold refreshToken
  rw [h]

/-- Witness for C9: refreshing for the unallocated userId 5 on the
concrete post-signUp world fails with the TypeError and leaves both
stores unchanged. -/
theorem C9_witness :
    refreshToken ⟨5, "d"⟩ stA = (.error .typeError, stA, []) ∧
      Err.typeError ≠ Err.notFound :=
  C9_refresh_null_deref ⟨5, "d"⟩ stA (by decide)

/-- Claim C1 (code bug): in `signUpAdmin` the defensive
`bcrypt.compare` call is not awaited (source line 68), so the branch
that should fail with Unauthorized tests the truthiness of the promise
object and is dead code.  With a bcrypt whose verification fails, the
flow nevertheless returns ok and issues a session: one refresh-token
record and one cache entry are written. -/
theorem C1_admin_selfcheck_dead :
    badBcrypt.compare "p" (badBcrypt.hash "p") = false ∧
    (signUpAdmin badBcrypt ⟨"a", "p", "d"⟩ st0).1 =
      .ok ⟨0, "a", .ADMIN, ⟨0, 1⟩⟩ ∧
    refreshCount (signUpAdmin badBcrypt ⟨"a", "p", "d"⟩ st0).2.1 0 "d" = 1 ∧
    cacheCount (signUpAdmin badBcrypt ⟨"a", "p", "d"⟩ st0).2.1 0 "d" = 1 := by
  refine ⟨rfl, rfl, rfl, rfl⟩

/-- Claim C6: in every `signIn` and every `refreshToken` execution, any
delete-phase store event occurs at a strictly earlier position of the
execution trace than any write-phase store event: the new refresh-token
record and cache entry are never written before the delete phase has
finished. -/
theorem C6_delete_before_write :
    (∀ (b : Bcrypt) (dto : SignInReqDto) (s : St) (i j : Nat)
        (hi : i < ((signIn b dto s).2.2).length)
        (hj : j < ((signIn b dto s).2.2).length),
        (((signIn b dto s).2.2).get ⟨i, hi⟩).isDelete = true →
        (((signIn b dto s).2.2).get ⟨j, hj⟩).isWrite = true → i < j) ∧
    (∀ (userData : IUserData) (s : St) (i j : Nat)
        (hi : i < ((refreshToken userData s).2.2).length)
        (hj : j < ((refreshToken userData s).2.2).length),
        (((refreshToken userData s).2.2).get ⟨i, hi⟩).isDelete = true →
        (((refreshToken userData s).2.2).get ⟨j, hj⟩).isWrite = true → i < j) := by
  constructor
  · intro b dto s i j hi hj hdel hwr
    exact trace_ordered_aux _ (signIn_trace_shape b dto s) i j hi hj hdel hwr
  · intro userData s i j hi hj hdel hwr
    exact trace_ordered_aux _ (refreshToken_trace_shape userData s) i j hi hj hdel hwr

/-- Witness for C6: in the concrete signIn run, the first delete event
(position 0) precedes the first write event (position 2). -/
theorem C6_witness :
    ((signIn goodBcrypt ⟨"d", "a", "p"⟩ stA).2.2).length = 4 ∧ (0 : Nat) < 2 := by
  refine ⟨rfl, ?_⟩
  exact C6_delete_before_write.1 goodBcrypt ⟨"d", "a", "p"⟩ stA 0 2
    (by decide) (by decide) (by decide) (by decide)

/-- Claim C2: after any successful signUp (on a state whose stored rows
use already-allocated userIds), signIn or refreshToken, exactly one
refresh-token record and one cache entry exist for the session's
(userId, deviceId); after logout zero exist.  A successful signIn
(a second one for the pair included) leaves for the pair exactly the one
record and the one entry holding the newly issued tokens, and on a state
whose stored tokens are older mints, any previously stored refresh token
for the pair differs from the newly issued one. -/
theorem C2_session_invariant :
    (∀ (b : Bcrypt) (dto : SignUpReqDto) (s : St) (r : AuthUserResDto) (s' : St)
        (tr : List Ev), idsFresh s = true → signUp b dto s = (.ok r, s', tr) →
        refreshCount s' r.userId dto.deviceId = 1 ∧
        cacheCount s' r.userId dto.deviceId = 1) ∧
    (∀ (b : Bcrypt) (dto : SignInReqDto) (s : St) (r : AuthUserResDto) (s' : St)
        (tr : List Ev), signIn b dto s = (.ok r, s', tr) →
        s'.refreshStore.filter (keyR r.userId dto.deviceId) =
          [⟨r.userId, dto.deviceId, r.tokens.refreshToken⟩] ∧
        s'.cache.filter (keyC r.userId dto.deviceId) =
          [⟨r.userId, dto.deviceId, r.tokens.accessToken⟩]) ∧
    (∀ (userData : IUserData) (s : St) (t : TokenResDto) (s' : St) (tr : List Ev),
        refreshToken userData s = (.ok t, s', tr) →
        refreshCount s' userData.userId userData.deviceId = 1 ∧
        cacheCount s' userData.userId userData.deviceId = 1) ∧
    (∀ (userData : IUserData) (s : St),
        refreshCount (logout userData s).2.1 userData.userId userData.deviceId = 0 ∧
        cacheCount (logout userData s).2.1 userData.userId userData.deviceId = 0) ∧
    (∀ (b : Bcrypt) (dto : SignInReqDto) (s : St) (r : AuthUserResDto) (s' : St)
        (tr : List Ev) (v : Nat), tokensFresh s = true →
        signIn b dto s = (.ok r, s', tr) →
        RefreshRec.mk r.userId dto.deviceId v ∈ s.refreshStore →
        v ≠ r.tokens.refreshToken) := by
  refine ⟨?_, ?_, ?_, ?_, ?_⟩
  · intro b dto s r s' tr hids h
    obtain ⟨hru, hrt, hR, hC⟩ := signUp_ok_inv b dto s r s' tr h
    simp only [idsFresh, Bool.and_eq_true] at hids
    constructor
    · rw [refreshCount, hru, hR, List.filter_append,
        filter_keyR_nil_of_lt s.refreshStore s.nextUserId dto.deviceId hids.1]
      have h1 : keyR s.nextUserId dto.deviceId
          ⟨s.nextUserId, dto.deviceId, r.tokens.refreshToken⟩ = true := by simp [keyR]
      simp [List.filter_cons, h1]
    · rw [cacheCount, hru, hC, filter_keyC_save]
      rfl
  · intro b dto s r s' tr h
    obtain ⟨user, hru, hrt, hR, hC⟩ := signIn_ok_inv b dto s r s' tr h
    constructor
    · rw [hru, hR]
      exact filter_keyR_delete_save s.refreshStore user.id dto.deviceId
        r.tokens.refreshToken
    · rw [hru, hC]
      exact filter_keyC_save s.cache user.id dto.deviceId r.tokens.accessToken
  · intro userData s t s' tr h
    obtain ⟨user, hid, hrt, hR, hC⟩ := refreshToken_ok_inv userData s t s' tr h
    constructor
    · rw [refreshCount, ← hid, hR, filter_keyR_delete_save]
      rfl
    · rw [cacheCount, ← hid, hC, filter_keyC_save]
      rfl
  · intro userData s
    constructor
    · simp [logout, refreshCount, refreshDeleteRows, cacheRemoveToken, filter_not_self]
    · simp [logout, cacheCount, refreshDeleteRows, cacheRemoveToken, filter_not_self]
  · intro b dto s r s' tr v hfresh h hmem
    obtain ⟨user, hru, hrt, hR, hC⟩ := signIn_ok_inv b dto s r s' tr h
    simp only [tokensFresh, Bool.and_eq_true, List.all_eq_true, decide_eq_true_eq]
      at hfresh
    have hv2 : v < 2 * s.tokenCounter := hfresh.1 _ hmem
    rw [hrt]
    show v ≠ 2 * s.tokenCounter + 1
    omega

/-- Witness for C2: the concrete signUp, first signIn, refreshToken,
logout and repeated-signIn runs instantiate every part of the
invariant. -/
theorem C2_witness :
    (refreshCount stA 0 "d" = 1 ∧ cacheCount stA 0 "d" = 1) ∧
    (stB.refreshStore.filter (keyR 0 "d") = [⟨0, "d", 3⟩] ∧
     stB.cache.filter (keyC 0 "d") = [⟨0, "d", 2⟩]) ∧
    (refreshCount (refreshToken ⟨0, "d"⟩ stB).2.1 0 "d" = 1 ∧
     cacheCount (refreshToken ⟨0, "d"⟩ stB).2.1 0 "d" = 1) ∧
    (refreshCount (logout ⟨0, "d"⟩ stB).2.1 0 "d" = 0 ∧
     cacheCount (logout ⟨0, "d"⟩ stB).2.1 0 "d" = 0) ∧
    (1 : Nat) ≠ 3 := by
  obtain ⟨h1, h2, h3, h4, h5⟩ := C2_session_invariant
  refine ⟨?_, ?_, ?_, h4 ⟨0, "d"⟩ stB, ?_⟩
  · exact h1 goodBcrypt ⟨"a", "p", "d"⟩ st0 ⟨0, "a", .USER, ⟨0, 1⟩⟩ stA _
      (by decide) rfl
  · exact h2 goodBcrypt ⟨"d", "a", "p"⟩ stA ⟨0, "a", .USER, ⟨2, 3⟩⟩ stB _ rfl
  · exact h3 ⟨0, "d"⟩ stB ⟨4, 5⟩ _ _ rfl
  · exact h5 goodBcrypt ⟨"d", "a", "p"⟩ stA ⟨0, "a", .USER, ⟨2, 3⟩⟩ stB _ 1
      (by decide) rfl (by decide)

/-- Claim C8: a successful `refreshToken` (on a state whose stored
tokens are older mints) returns only the new token pair, and both
returned tokens differ from every token value stored before the call —
in particular from the pair's previously stored refresh token and cached
access token; afterwards the pair's stored values are exactly the
returned ones. -/
theorem C8_token_rotation (userData : IUserData) (s : St) (t : TokenResDto)
    (s' : St) (tr : List Ev) :
    tokensFresh s = true →
    refreshToken userData s = (.ok t, s', tr) →
    (∀ r ∈ s.refreshStore, r.token ≠ t.refreshToken) ∧
    (∀ e ∈ s.cache, e.token ≠ t.accessToken) ∧
    s'.refreshStore.filter (keyR userData.userId userData.deviceId) =
      [⟨userData.userId, userData.deviceId, t.refreshToken⟩] ∧
    s'.cache.filter (keyC userData.userId userData.deviceId) =
      [⟨userData.userId, userData.deviceId, t.accessToken⟩] := by
  intro hfresh h
  obtain ⟨user, hid, hrt, hR, hC⟩ := refreshToken_ok_inv userData s t s' tr h
  simp only [tokensFresh, Bool.and_eq_true, List.all_eq_true, decide_eq_true_eq]
    at hfresh
  refine ⟨?_, ?_, ?_, ?_⟩
  · intro r hr
    have hv := hfresh.1 r hr
    rw [hrt]
    show r.token ≠ 2 * s.tokenCounter + 1
    omega
  · intro e he
    have hv := hfresh.2 e he
    rw [hrt]
    show e.token ≠ 2 * s.tokenCounter
    omega
  · rw [← hid, hR]
    exact filter_keyR_delete_save s.refreshStore user.id userData.deviceId
      t.refreshToken
  · rw [← hid, hC]
    exact filter_keyC_save s.cache user.id userData.deviceId t.accessToken

/-- Witness for C8: refreshing the concrete post-signIn session rotates
the stored tokens 3 and 2 to the fresh pair (5, 4) and stores exactly
the returned values. -/
theorem C8_witness :
    (∀ r ∈ stB.refreshStore, r.token ≠ 5) ∧
    (∀ e ∈ stB.cache, e.token ≠ 4) ∧
    (refreshToken ⟨0, "d"⟩ stB).2.1.refreshStore.filter (keyR 0 "d") =
      [⟨0, "d", 5⟩] ∧
    (refreshToken ⟨0, "d"⟩ stB).2.1.cache.filter (keyC 0 "d") = [⟨0, "d", 4⟩] :=
  C8_token_rotation ⟨0, "d"⟩ stB ⟨4, 5⟩ _ _ (by decide) rfl

end FinalWork
